import Mathlib

/-!
Verification of the session-orchestration layer of chiro.js
(`src/structures/Manager.ts`).  The TypeScript class `Manager` is shallowly
embedded: its observable state becomes the structure `Manager`, its methods
become pure functions threading that state, and a method's effect on the node
socket is returned as the list of strings written to the socket.

JavaScript semantics embedded explicitly:
* an absent object property is `Option.none`;
* the truthiness test `if (x)` on a string is `x ≠ ""`; on a possibly absent
  string it is false for `none` and for `some ""`;
* the object spread `\x7b node: default, ...options \x7d` is a shallow,
  property-wise override: a caller-supplied `node` object replaces the whole
  default node object, it is not merged field by field;
* `a === "ytsearch" || "scsearch"` parses as `(a === "ytsearch") || "scsearch"`
  and the non-empty string literal `"scsearch"` is truthy, so the whole
  condition is truthy for every `a`.
-/

namespace Chiro

/-- Requester identity (the `User` object from discord.js); opaque here. -/
abbrev User := String

/-- Node connection parameters (`NodeOptions`); every property is optional on
the caller's side, so each field is an `Option`. -/
structure NodeOptions where
  identifier : Option String := none
  host : Option String := none
  port : Option Nat := none
  password : Option String := none
deriving DecidableEq

/-- Constructor input (`ManagerOptions`); the `send` callback is outside the
state model. -/
structure ManagerOptions where
  node : Option NodeOptions := none
  clientID : Option String := none
deriving DecidableEq

/-- The options record stored on the instance (`this.options`) after the
constructor's spread: the `node` property is always present there. -/
structure StoredOptions where
  node : NodeOptions
  clientID : Option String := none
deriving DecidableEq

/-- `PlayerOptions`: the guild is the registry key; `voiceChannel` stands for
the remaining per-player options. -/
structure PlayerOptions where
  guild : String
  voiceChannel : String := ""
deriving DecidableEq

/-- A `Player` instance.  The `id` field is an allocation stamp that models
object identity: two players are the same JS object exactly when their stamps
agree. -/
structure Player where
  id : Nat
  guild : String
  voiceChannel : String
deriving DecidableEq

/-- Observable `Manager` state.  `connectCount` counts the invocations of
`node.connect()`; `players` is the discord.js `Collection` keyed by guild ID;
`nextId` is the allocation stamp for the next constructed player. -/
structure Manager where
  options : StoredOptions
  initiated : Bool := false
  connectCount : Nat := 0
  players : List (String × Player) := []
  nextId : Nat := 0
deriving DecidableEq

/-- The default node object from the constructor:
`\x7b identifier: "default", host: "localhost" \x7d`. -/
def defaultNodeOptions : NodeOptions :=
  { identifier := some "default", host := some "localhost" }

/-- The `Manager` constructor.  `this.options = \x7b node: default, ...options \x7d`
is a shallow spread: when the caller's record has a `node` property it
replaces the default node object wholesale; the `Node` is constructed but not
connected (`connectCount` stays 0 until `init`). -/
def Manager.new (options : ManagerOptions) : Manager :=
  { options :=
      { node :=
          match options.node with
          | some n => n
          | none => defaultNodeOptions
        clientID := options.clientID } }

/-- JavaScript truthiness of a possibly absent string: absent and `""` are
falsy. -/
def jsTruthy : Option String → Bool
  | none => false
  | some s => s != ""

/-- JavaScript truthiness of a plain string: only `""` is falsy. -/
def jsTruthyStr (s : String) : Bool := s != ""

/-- `Manager.init(clientID)`: guarded by `initiated`; stores the client ID if
truthy, calls `node.connect()`, then sets the flag. -/
def Manager.init (m : Manager) (clientID : Option String) : Manager :=
  if m.initiated then m
  else
    let m1 := if jsTruthy clientID
      then { m with options := { m.options with clientID := clientID } }
      else m
    let m2 := { m1 with connectCount := m1.connectCount + 1 }
    { m2 with initiated := true }

/-- A track record (`TrackData`): the backend supplies every field except
`requested_by`, which is attached at resolution time (absent on raw backend
data). -/
structure TrackData where
  url : String
  title : String
  thumbnail : Option String := none
  duration : Int := 0
  author : String := ""
  created_at : String := ""
  extractor : String := ""
  requested_by : Option User := none
deriving DecidableEq

/-- One element of the backend's `results` array: track-like fields plus the
playlist metadata and the nested `tracks` array present on playlist-shaped
entries. -/
structure ResultEntry where
  url : String
  title : String
  id : String := ""
  author : String := ""
  extractor : String := ""
  thumbnail : Option String := none
  duration : Int := 0
  created_at : String := ""
  tracks : List TrackData := []
deriving DecidableEq

/-- `PlaylistInfo`. -/
structure PlaylistInfo where
  id : String
  title : String
  url : String
  author : String
  extractor : String
deriving DecidableEq

/-- The parsed JSON body of the backend's search response. -/
structure SearchResponse where
  identifier : String
  results : List ResultEntry
deriving DecidableEq

/-- The `type` discriminant of a `SearchResult`. -/
inductive ResultType
  | NO_RESULT
  | SEARCH_RESULT
  | PLAYLIST
deriving DecidableEq

/-- The `tracks` field of a `SearchResult`: the flat branch attaches the raw
result entries as-is, while the playlist branch attaches normalized track
records — two different array shapes in the untyped source, kept apart here. -/
inductive ResultTracks
  | raw (entries : List ResultEntry)
  | built (tracks : List TrackData)
deriving DecidableEq

/-- Length of the attached tracks array. -/
def ResultTracks.length : ResultTracks → Nat
  | .raw entries => entries.length
  | .built tracks => tracks.length

/-- `SearchResult`. -/
structure SearchResult where
  type : ResultType
  playlist : Option PlaylistInfo := none
  tracks : ResultTracks
  requester : User
deriving DecidableEq

/-- `Manager.buildTrackData`: copy every backend field through unchanged and
attach the requester. -/
def Manager.buildTrackData (data : TrackData) (requester : User) : TrackData :=
  { url := data.url
    title := data.title
    thumbnail := data.thumbnail
    duration := data.duration
    author := data.author
    created_at := data.created_at
    extractor := data.extractor
    requested_by := some requester }

/-- `Manager.resolveTrackData`.  The second branch embeds the source's test
`res.identifier === "ytsearch" || "scsearch"` literally: a boolean comparison
or-ed with the truthiness of the constant string `"scsearch"`. -/
def Manager.resolveTrackData (res : SearchResponse) (requester : User) : SearchResult :=
  if res.results.length = 0 then
    { type := .NO_RESULT, tracks := .raw [], requester := requester }
  else if (res.identifier == "ytsearch") || jsTruthyStr "scsearch" then
    { type := .SEARCH_RESULT, tracks := .raw res.results, requester := requester }
  else
    let first := res.results.headD { url := "", title := "" }
    { type := .PLAYLIST
      playlist := some
        { title := first.title
          id := first.id
          url := first.url
          author := first.author
          extractor := first.extractor }
      tracks := .built (first.tracks.map fun track => Manager.buildTrackData track requester)
      requester := requester }

/-- `Manager.search`: the HTTP round trip through `node.makeRequest` is the
external boundary, so the backend's parsed JSON body is taken as input and
normalized by `resolveTrackData` exactly as in the source. -/
def Manager.search (response : SearchResponse) (requester : User) : SearchResult :=
  Manager.resolveTrackData response requester

/-- discord.js `Collection.set`: insert-or-replace keyed by guild ID. -/
def setKey (l : List (String × Player)) (k : String) (v : Player) : List (String × Player) :=
  match l with
  | [] => [(k, v)]
  | (k', v') :: rest => if k' = k then (k, v) :: rest else (k', v') :: setKey rest k v

/-- `Manager.get` / `Collection.get`: lookup by guild ID. -/
def Manager.get (m : Manager) (g : String) : Option Player :=
  (m.players.find? fun p => p.1 == g).map Prod.snd

/-- Modelled from the spec: the `Player` constructor
(`src/structures/Player.ts` is not among the sources; `Manager.create` only
calls it).  Per the registry description the constructor-driven path
"construct[s] a new Session from `options`, insert[s] it keyed by guild ID",
and the design notes record that this insertion happens by static registration
inside the session constructor.  A fresh allocation stamp gives the
constructed player its identity. -/
def Player.new (m : Manager) (options : PlayerOptions) : Manager × Player :=
  let p : Player :=
    { id := m.nextId, guild := options.guild, voiceChannel := options.voiceChannel }
  ({ m with players := setKey m.players options.guild p, nextId := m.nextId + 1 }, p)

/-- `Manager.create`, parameterized by the player constructor so that the
method body's own effect on the registry is separable from the constructor's
side effect.  The `getD` default models the TS narrowing of
`Player | undefined` under the `has` guard and is unreachable. -/
def Manager.createWith (ctor : Manager → PlayerOptions → Manager × Player)
    (m : Manager) (options : PlayerOptions) : Manager × Player :=
  if (m.get options.guild).isSome then
    (m, (m.get options.guild).getD { id := 0, guild := options.guild, voiceChannel := "" })
  else
    ctor m options

/-- `Manager.create`: the source body instantiated with the real `Player`
constructor. -/
def Manager.create : Manager → PlayerOptions → Manager × Player :=
  Manager.createWith Player.new

/-- A raw gateway event: type tag `t` (possibly absent) and payload `d`, the
latter kept as its already-serialized JSON text. -/
structure GatewayEvent where
  t : Option String := none
  d : String := ""
deriving DecidableEq

/-- `JSON.stringify` on a gateway event. -/
def stringifyEvent (ev : GatewayEvent) : String :=
  "\x7b\"t\":" ++
    (match ev.t with
     | none => "null"
     | some s => "\"" ++ s ++ "\"") ++
    ",\"d\":" ++ ev.d ++ "\x7d"

/-- The source's `data.t || ""`. -/
def jsOrEmpty : Option String → String
  | none => ""
  | some s => s

/-- `Manager.updateVoiceState`: returns the unchanged manager state (the
method assigns no field) together with the list of strings written to
`node.socket`. -/
def Manager.updateVoiceState (m : Manager) (data : Option GatewayEvent) :
    Manager × List String :=
  match data with
  | none => (m, [])
  | some ev =>
    if ¬ (jsOrEmpty ev.t ∈ ["VOICE_SERVER_UPDATE", "VOICE_STATE_UPDATE"]) then
      (m, [])
    else
      (m, (if ev.t == some "VOICE_SERVER_UPDATE" then [stringifyEvent ev] else []) ++
          (if ev.t == some "VOICE_STATE_UPDATE" then [stringifyEvent ev] else []))

/-- A playlist-shaped backend response: identifier outside the two flat
search-tag families and a first result entry carrying a nested tracks
array. -/
def playlistResponse : SearchResponse :=
  { identifier := "ytplaylist"
    results :=
      [{ url := "https://pl.example/1"
         title := "Some Playlist"
         id := "PL1"
         author := "plauthor"
         extractor := "youtube"
         tracks :=
           [{ url := "https://tr.example/1", title := "Track One" },
            { url := "https://tr.example/2", title := "Track Two" }] }] }

/-- Constructor options whose `node` object omits the `identifier` field. -/
def nodeNoIdentifierOptions : ManagerOptions :=
  { node := some { host := some "somehost", port := some 3000, password := some "pw" } }

/-- A concrete non-empty flat search response. -/
def flatResponse : SearchResponse :=
  { identifier := "ytsearch"
    results := [{ url := "https://tr.example/9", title := "Track Nine" }] }

/-- A constant player constructor that touches no manager state; used to
exercise the parameterized `create` body. -/
def ctorConst : Manager → PlayerOptions → Manager × Player :=
  fun m _ => (m, { id := 0, guild := "", voiceChannel := "" })

/-- Concrete player options sharing a guild but differing elsewhere. -/
def optsGuildA1 : PlayerOptions := { guild := "guildA", voiceChannel := "vc1" }

/-- Second options record on the same guild. -/
def optsGuildA2 : PlayerOptions := { guild := "guildA", voiceChannel := "vc2" }

/-- A concrete gateway event with a recognized tag. -/
def voiceStateEvent : GatewayEvent := { t := some "VOICE_STATE_UPDATE", d := "\x7b\x7d" }

/-- A concrete gateway event with an unrecognized tag. -/
def guildCreateEvent : GatewayEvent := { t := some "GUILD_CREATE", d := "\x7b\x7d" }

theorem init_initiated (m : Manager) (c : Option String) :
    (Manager.init m c).initiated = true := by
  unfold Manager.init
  by_cases h : m.initiated
  · simp [h]
  · simp [h]

theorem init_of_initiated (m : Manager) (c : Option String) (h : m.initiated = true) :
    Manager.init m c = m := by
  unfold Manager.init
  simp [h]

theorem foldl_init_of_initiated (m : Manager) (l : List (Option String))
    (h : m.initiated = true) : l.foldl Manager.init m = m := by
  induction l with
  | nil => rfl
  | cons a rest ih => rw [List.foldl_cons, init_of_initiated m a h]; exact ih

theorem init_connectCount (m : Manager) (c : Option String) :
    (Manager.init m c).connectCount =
      if m.initiated then m.connectCount else m.connectCount + 1 := by
  unfold Manager.init
  by_cases h : m.initiated
  · simp [h]
  · cases hj : jsTruthy c <;> simp [h, hj]

theorem find?_setKey (l : List (String × Player)) (k : String) (v : Player) :
    (setKey l k v).find? (fun p => p.1 == k) = some (k, v) := by
  induction l with
  | nil => simp [setKey]
  | cons hd tl ih =>
    obtain ⟨k', v'⟩ := hd
    by_cases h : k' = k
    · subst h
      simp [setKey]
    · simp [setKey, h, ih]

theorem create_of_found (m : Manager) (o : PlayerOptions) (v : Player)
    (hf : m.get o.guild = some v) : Manager.create m o = (m, v) := by
  unfold Manager.create Manager.createWith
  simp [hf]

theorem create_of_not_found (m : Manager) (o : PlayerOptions)
    (hf : m.get o.guild = none) : Manager.create m o = Player.new m o := by
  unfold Manager.create Manager.createWith
  simp [hf]

theorem get_playerNew (m : Manager) (o : PlayerOptions) :
    (Player.new m o).1.get o.guild = some (Player.new m o).2 := by
  unfold Player.new Manager.get
  simp [find?_setKey]

/-- Claim C1: the spec intends a playlist-shaped response (non-empty results,
identifier outside the two flat search-tag families, nested tracks on
`results[0]`) to yield a `PLAYLIST` result with normalized tracks.  The code's
branch test `res.identifier === "ytsearch" || "scsearch"` is always truthy, so
on exactly such a response `search` returns `SEARCH_RESULT` with the raw
entries instead — the dead playlist branch below it is the evident intent, and
the theorem exhibits the divergence at a concrete playlist-shaped input. -/
theorem C1_playlist_misclassified :
    playlistResponse.results ≠ [] ∧
    playlistResponse.identifier ≠ "ytsearch" ∧
    playlistResponse.identifier ≠ "scsearch" ∧
    (playlistResponse.results.headD { url := "", title := "" }).tracks.length = 2 ∧
    (Manager.search playlistResponse "alice").type = ResultType.SEARCH_RESULT ∧
    (Manager.search playlistResponse "alice").type ≠ ResultType.PLAYLIST := by
  decide

/-- Claim C2: every backend response with a non-empty results list resolves to
a `SEARCH_RESULT` carrying the raw results list unchanged, whatever the
identifier; the `PLAYLIST` branch is never taken for a non-empty response. -/
theorem C2_nonempty_is_search_result (res : SearchResponse) (requester : User)
    (h : res.results ≠ []) :
    Manager.resolveTrackData res requester =
      { type := ResultType.SEARCH_RESULT
        playlist := none
        tracks := ResultTracks.raw res.results
        requester := requester } := by
  unfold Manager.resolveTrackData
  have h0 : ¬ res.results.length = 0 := by
    simpa [List.length_eq_zero] using h
  have hc : jsTruthyStr "scsearch" = true := by decide
  simp [h0, hc]

theorem C2_nonempty_is_search_result_witness :
    Manager.resolveTrackData flatResponse "alice" =
      { type := ResultType.SEARCH_RESULT
        playlist := none
        tracks := ResultTracks.raw flatResponse.results
        requester := "alice" } :=
  C2_nonempty_is_search_result flatResponse "alice" (by decide)

/-- Claim C3: creating twice with options sharing one guild yields the same
player instance both times; the second call returns exactly the object the
first call produced and registered under that guild, ignoring its own other
options.  The registering `Player` constructor is modelled from the spec. -/
theorem C3_create_get_or_create (m : Manager) (o1 o2 : PlayerOptions)
    (h : o1.guild = o2.guild) :
    (Manager.create (Manager.create m o1).1 o2).2 = (Manager.create m o1).2 ∧
    (Manager.create (Manager.create m o1).1 o2).1 = (Manager.create m o1).1 ∧
    (Manager.create m o1).1.get o1.guild = some (Manager.create m o1).2 := by
  cases hf : m.get o1.guild with
  | some v =>
    have e1 : Manager.create m o1 = (m, v) := create_of_found m o1 v hf
    have hf2 : m.get o2.guild = some v := by rw [← h]; exact hf
    have e2 : Manager.create m o2 = (m, v) := create_of_found m o2 v hf2
    rw [e1]
    exact ⟨by rw [e2], by rw [e2], hf⟩
  | none =>
    have e1 : Manager.create m o1 = Player.new m o1 := create_of_not_found m o1 hf
    have hreg : (Player.new m o1).1.get o1.guild = some (Player.new m o1).2 :=
      get_playerNew m o1
    have hreg2 : (Player.new m o1).1.get o2.guild = some (Player.new m o1).2 := by
      rw [← h]; exact hreg
    have e2 : Manager.create (Player.new m o1).1 o2 =
        ((Player.new m o1).1, (Player.new m o1).2) :=
      create_of_found (Player.new m o1).1 o2 (Player.new m o1).2 hreg2
    rw [e1, e2]
    exact ⟨rfl, rfl, hreg⟩

theorem C3_create_get_or_create_witness :
    (Manager.create (Manager.create (Manager.new {}) optsGuildA1).1 optsGuildA2).2 =
      (Manager.create (Manager.new {}) optsGuildA1).2 ∧
    (Manager.create (Manager.create (Manager.new {}) optsGuildA1).1 optsGuildA2).1 =
      (Manager.create (Manager.new {}) optsGuildA1).1 ∧
    (Manager.create (Manager.new {}) optsGuildA1).1.get optsGuildA1.guild =
      some (Manager.create (Manager.new {}) optsGuildA1).2 :=
  C3_create_get_or_create (Manager.new {}) optsGuildA1 optsGuildA2 rfl

/-- Claim C4: a response with an empty results list resolves to `NO_RESULT`
with an empty tracks sequence and the caller's requester, for every
identifier value. -/
theorem C4_empty_results_no_result (res : SearchResponse) (requester : User)
    (h : res.results = []) :
    Manager.search res requester =
      { type := ResultType.NO_RESULT
        playlist := none
        tracks := ResultTracks.raw []
        requester := requester } ∧
    (Manager.search res requester).tracks.length = 0 := by
  unfold Manager.search Manager.resolveTrackData
  simp [h, ResultTracks.length]

theorem C4_empty_results_no_result_witness :
    Manager.search { identifier := "anything", results := [] } "bob" =
      { type := ResultType.NO_RESULT
        playlist := none
        tracks := ResultTracks.raw []
        requester := "bob" } ∧
    (Manager.search { identifier := "anything", results := [] } "bob").tracks.length = 0 :=
  C4_empty_results_no_result { identifier := "anything", results := [] } "bob" rfl

/-- Claim C5: across any sequence of `init` calls on one freshly constructed
manager, `node.connect` is invoked at most once. -/
theorem C5_connect_at_most_once (options : ManagerOptions)
    (args : List (Option String)) :
    (args.foldl Manager.init (Manager.new options)).connectCount ≤ 1 := by
  cases args with
  | nil => exact Nat.zero_le 1
  | cons a rest =>
    rw [List.foldl_cons,
      foldl_init_of_initiated _ rest (init_initiated (Manager.new options) a),
      init_connectCount]
    have h1 : (Manager.new options).initiated = false := rfl
    have h2 : (Manager.new options).connectCount = 0 := rfl
    rw [h1, h2]
    simp

/-- Claim C6 counterexample: with a caller-supplied node object that omits the
identifier, the stored node options do not carry the default identifier — the
shallow spread replaced the default node object wholesale. -/
theorem C6_counterexample :
    (Manager.new nodeNoIdentifierOptions).options.node.identifier ≠ some "default" ∧
    (Manager.new nodeNoIdentifierOptions).options.node.identifier = none := by
  decide

/-- Claim C6 (amended): the well-known defaults (identifier `"default"`, host
`"localhost"`) apply only when the caller omits the `node` field entirely; a
caller-supplied node object is stored as-is, so a node omitting the identifier
leaves the stored identifier unset. -/
theorem C6_node_defaults_shallow (options : ManagerOptions) :
    (Manager.new options).options.node = options.node.getD defaultNodeOptions ∧
    (Manager.new options).options.clientID = options.clientID := by
  cases h : options.node <;> simp [Manager.new, h]

/-- Claim C7: an event tagged `VOICE_STATE_UPDATE` (likewise
`VOICE_SERVER_UPDATE`) causes exactly one socket send, whose string is the
JSON serialization of the entire original event payload unchanged. -/
theorem C7_voice_update_single_send (m : Manager) (ev : GatewayEvent)
    (h : ev.t = some "VOICE_STATE_UPDATE" ∨ ev.t = some "VOICE_SERVER_UPDATE") :
    Manager.updateVoiceState m (some ev) = (m, [stringifyEvent ev]) := by
  obtain ⟨t, d⟩ := ev
  rcases h with h | h <;> simp only at h <;> subst h <;> rfl

theorem C7_voice_update_single_send_witness :
    Manager.updateVoiceState (Manager.new {}) (some voiceStateEvent) =
      (Manager.new {}, [stringifyEvent voiceStateEvent]) :=
  C7_voice_update_single_send (Manager.new {}) voiceStateEvent (Or.inl rfl)

/-- Claim C8: an event whose tag is neither `VOICE_SERVER_UPDATE` nor
`VOICE_STATE_UPDATE` (including an absent tag, and including an absent event)
causes no socket send and leaves the manager state unchanged. -/
theorem C8_other_tags_no_send (m : Manager) (ev : GatewayEvent)
    (h1 : ev.t ≠ some "VOICE_SERVER_UPDATE") (h2 : ev.t ≠ some "VOICE_STATE_UPDATE") :
    Manager.updateVoiceState m (some ev) = (m, []) ∧
    Manager.updateVoiceState m none = (m, []) := by
  refine ⟨?_, rfl⟩
  cases hev : ev.t with
  | none => simp [Manager.updateVoiceState, jsOrEmpty, hev]
  | some s =>
    have hs1 : s ≠ "VOICE_SERVER_UPDATE" := fun e => h1 (by rw [hev, e])
    have hs2 : s ≠ "VOICE_STATE_UPDATE" := fun e => h2 (by rw [hev, e])
    simp [Manager.updateVoiceState, jsOrEmpty, hev, hs1, hs2]

theorem C8_other_tags_no_send_witness :
    Manager.updateVoiceState (Manager.new {}) (some guildCreateEvent) =
      (Manager.new {}, []) ∧
    Manager.updateVoiceState (Manager.new {}) none = (Manager.new {}, []) :=
  C8_other_tags_no_send (Manager.new {}) guildCreateEvent (by decide) (by decide)

/-- Claim C9: the body of `create` performs no insertion into the players
collection — for every player constructor that leaves the collection
untouched, `create` built on it leaves the collection untouched, so all
registration observed through `Manager.create` comes from the `Player`
constructor alone. -/
theorem C9_create_body_no_insert (ctor : Manager → PlayerOptions → Manager × Player)
    (hctor : ∀ m o, ((ctor m o).1).players = m.players)
    (m : Manager) (o : PlayerOptions) :
    ((Manager.createWith ctor m o).1).players = m.players := by
  unfold Manager.createWith
  by_cases h : (m.get o.guild).isSome
  · simp [h]
  · simp [h, hctor]

theorem C9_create_body_no_insert_witness :
    ((Manager.createWith ctorConst (Manager.new {}) optsGuildA1).1).players =
      (Manager.new {}).players :=
  C9_create_body_no_insert ctorConst (fun _ _ => rfl) (Manager.new {}) optsGuildA1

/-- Claim C10: after a first `init` call every subsequent `init` call, with
any client ID, leaves the manager's observable state (client ID, `initiated`
flag, connect count, registry) entirely unchanged. -/
theorem C10_init_idempotent (m : Manager) (c1 c2 : Option String) :
    Manager.init (Manager.init m c1) c2 = Manager.init m c1 :=
  init_of_initiated (Manager.init m c1) c2 (init_initiated m c1)

end Chiro
